import Mathlib

/-!
Verification development for the AcousticAnalyzer audio-analysis engine
(`src/PluginProcessor.h` / `src/PluginProcessor.cpp`).

Embedding conventions:
* `float`/`double` arithmetic is modelled exactly over `ℚ`.
* The external spectral stage (JUCE Hann window + `juce::dsp::FFT`
  `performFrequencyOnlyForwardTransform`) is an abstract parameter
  `transform : List ℚ → List ℚ` mapping the completed analysis frame to the
  magnitude spectrum; theorems that need a property of it (e.g. that the
  magnitude spectrum of the all-zero frame is all-zero) take it as a
  hypothesis.
* `std::sqrt` and the square root inside `juce::AudioBuffer::getRMSLevel`
  are an abstract parameter `sqrtQ : ℚ → ℚ`, with the properties a proof
  needs (e.g. `sqrtQ 0 = 0`) taken as hypotheses.
* Wall-clock reads (`juce::Time::currentTimeMillis`) are explicit `ℤ`
  millisecond inputs to the operations that read the clock.
* Member functions mutating the `AudioPluginAudioProcessor` object become
  functions returning a new state.
-/

namespace AcousticAnalyzer

/-- Model of `juce::jlimit lower upper value`:
`value < lower ? lower : upper < value ? upper : value`. -/
def jlimit (lo hi v : ℚ) : ℚ := if v < lo then lo else if hi < v then hi else v

/-- `static constexpr int fftOrder = 11;` -/
def fftOrder : ℕ := 11

/-- `static constexpr int fftSize = 1 << fftOrder;` (= 2048). -/
def fftSize : ℕ := 2048

/-- `static constexpr int rmsHistorySize = 100;` -/
def rmsHistorySize : ℕ := 100

/-- The `DataPoint` struct of `PluginProcessor.h`. -/
structure DataPoint where
  timestamp : ℚ
  activationScore : ℚ
  spectralCentroid : ℚ
  spectralHarshness : ℚ
  dynamicVariability : ℚ
  temporalUnpredictability : ℚ
  rmsLevel : ℚ
deriving DecidableEq

/-- The mutable member state of `AudioPluginAudioProcessor`.
`fftData` holds the analysis-frame samples (positions `0 .. fftSize-1`;
the transform consumes it wholesale, so the scratch upper half of the C++
array is not represented). The six atomic metric members, the RMS history
ring, the cursor positions, sample rate and the logging state are carried
verbatim. -/
structure AudioPluginAudioProcessor where
  fftData : List ℚ
  fftPos : ℕ
  spectralCentroid : ℚ
  spectralHarshness : ℚ
  rmsLevel : ℚ
  dynamicVariability : ℚ
  temporalUnpredictability : ℚ
  acousticActivationScore : ℚ
  rmsHistory : List ℚ
  rmsHistoryPos : ℕ
  currentSampleRate : ℚ
  dataLog : List DataPoint
  isLogging : Bool
  loggingStartTime : ℤ
deriving DecidableEq

abbrev Engine := AudioPluginAudioProcessor

/-- The constructor: `fftData.fill(0.0f); rmsHistory.fill(0.0f);` plus the
member initializers of `PluginProcessor.h` (metrics 0, score 50, logging
off, sample rate 44100). -/
def initialState : Engine where
  fftData := List.replicate fftSize 0
  fftPos := 0
  spectralCentroid := 0
  spectralHarshness := 0
  rmsLevel := 0
  dynamicVariability := 0
  temporalUnpredictability := 0
  acousticActivationScore := 50
  rmsHistory := List.replicate rmsHistorySize 0
  rmsHistoryPos := 0
  currentSampleRate := 44100
  dataLog := []
  isLogging := false
  loggingStartTime := 0

/-- `calculateSpectralCentroid` (value computed and stored): weighted mean
frequency of the first `fftSize/2` magnitude bins, 0 when the magnitude sum
is not positive, divided by 8000 and clamped to `[0,1]`. -/
def calculateSpectralCentroid (spectrum : List ℚ) (sampleRate : ℚ) : ℚ :=
  let numerator := Finset.sum (Finset.range (fftSize / 2))
    (fun i => spectrum.getD i 0 * ((i : ℚ) * sampleRate / (fftSize : ℚ)))
  let denominator := Finset.sum (Finset.range (fftSize / 2))
    (fun i => spectrum.getD i 0)
  let centroid := if 0 < denominator then numerator / denominator else 0
  jlimit 0 1 (centroid / 8000)

/-- `calculateSpectralHarshness`: ratio of high-frequency magnitude (bins at
or above the crossover bin `int((2000 * fftSize) / sampleRate)`) to total
magnitude, 0 when the total is not positive, doubled and clamped to `[0,1]`. -/
def calculateSpectralHarshness (spectrum : List ℚ) (sampleRate : ℚ) : ℚ :=
  let crossoverBin : ℤ := ⌊(2000 * (fftSize : ℚ)) / sampleRate⌋
  let lowFreqEnergy := Finset.sum (Finset.range (fftSize / 2))
    (fun i => if (i : ℤ) < crossoverBin then spectrum.getD i 0 else 0)
  let highFreqEnergy := Finset.sum (Finset.range (fftSize / 2))
    (fun i => if (i : ℤ) < crossoverBin then 0 else spectrum.getD i 0)
  let totalEnergy := lowFreqEnergy + highFreqEnergy
  let harshness := if 0 < totalEnergy then highFreqEnergy / totalEnergy else 0
  jlimit 0 1 (harshness * 2)

/-- `calculateDynamicVariability`: population standard deviation of the
`rmsHistorySize` history entries, times 20, clamped to `[0,1]`.
`std::sqrt` is the abstract `sqrtQ`. -/
def calculateDynamicVariability (sqrtQ : ℚ → ℚ) (history : List ℚ) : ℚ :=
  let mean := history.sum / (rmsHistorySize : ℚ)
  let variance := (history.map (fun x => (x - mean) * (x - mean))).sum / (rmsHistorySize : ℚ)
  let stdDev := sqrtQ variance
  jlimit 0 1 (stdDev * 20)

/-- `calculateTemporalUnpredictability`: mean absolute difference of
consecutive history entries in raw storage order (`rmsHistorySize - 1`
terms), times 50, clamped to `[0,1]`. -/
def calculateTemporalUnpredictability (history : List ℚ) : ℚ :=
  let totalDiff := Finset.sum (Finset.Ico 1 rmsHistorySize)
    (fun i => |history.getD i 0 - history.getD (i - 1) 0|)
  let count := rmsHistorySize - 1
  let avgDiff := if 0 < count then totalDiff / (count : ℚ) else 0
  jlimit 0 1 (avgDiff * 50)

/-- `calculateAcousticActivationScore`: loads the four just-stored feature
members, forms the four `(1 - x) * 100` sub-scores, takes the weighted sum
with weights 0.25 / 0.35 / 0.20 / 0.20, and clamps to `[0,100]`. -/
def calculateAcousticActivationScore (c h v u : ℚ) : ℚ :=
  let centroidScore := (1 - c) * 100
  let harshnessScore := (1 - h) * 100
  let dynamicScore := (1 - v) * 100
  let unpredictScore := (1 - u) * 100
  let score := centroidScore * 0.25 + harshnessScore * 0.35 +
    dynamicScore * 0.20 + unpredictScore * 0.20
  jlimit 0 100 score

/-- `logDataPoint`: appends a snapshot of the published metrics with
timestamp `(currentTimeMillis() - loggingStartTime) / 1000.0`. -/
def logDataPoint (now : ℤ) (s : Engine) : Engine :=
  let currentTime : ℚ := ((now - s.loggingStartTime : ℤ) : ℚ) / 1000
  { s with dataLog := s.dataLog ++
      [{ timestamp := currentTime
         activationScore := s.acousticActivationScore
         spectralCentroid := s.spectralCentroid
         spectralHarshness := s.spectralHarshness
         dynamicVariability := s.dynamicVariability
         temporalUnpredictability := s.temporalUnpredictability
         rmsLevel := s.rmsLevel }] }

/-- `performFFTAnalysis`: window + transform the frame (abstract
`transform`), store the four features, then the composite score, then log a
data point when recording. -/
def performFFTAnalysis (sqrtQ : ℚ → ℚ) (transform : List ℚ → List ℚ)
    (now : ℤ) (s : Engine) : Engine :=
  let spectrum := transform s.fftData
  let c := calculateSpectralCentroid spectrum s.currentSampleRate
  let h := calculateSpectralHarshness spectrum s.currentSampleRate
  let v := calculateDynamicVariability sqrtQ s.rmsHistory
  let u := calculateTemporalUnpredictability s.rmsHistory
  let score := calculateAcousticActivationScore c h v u
  let s1 := { s with
    spectralCentroid := c
    spectralHarshness := h
    dynamicVariability := v
    temporalUnpredictability := u
    acousticActivationScore := score }
  if s1.isLogging then logDataPoint now s1 else s1

/-- One iteration of the per-sample loop in `processBlock`:
`fftData[fftPos] = x; fftPos++; if (fftPos >= fftSize) { fftPos = 0;
performFFTAnalysis(); }`. -/
def ingestSample (sqrtQ : ℚ → ℚ) (transform : List ℚ → List ℚ)
    (now : ℤ) (s : Engine) (x : ℚ) : Engine :=
  let s1 := { s with fftData := s.fftData.set s.fftPos x, fftPos := s.fftPos + 1 }
  if fftSize ≤ s1.fftPos then
    performFFTAnalysis sqrtQ transform now { s1 with fftPos := 0 }
  else s1

/-- Model of the external `juce::AudioBuffer::getRMSLevel` collaborator:
square root of the mean of squares, 0 for an empty range. -/
def getRMSLevel (sqrtQ : ℚ → ℚ) (samples : List ℚ) : ℚ :=
  if samples.length = 0 then 0
  else sqrtQ ((samples.map (fun x => x * x)).sum / (samples.length : ℚ))

/-- `processBlock` (channel 0): publish the block RMS, push it into the RMS
history ring at `rmsHistoryPos` (advancing mod `rmsHistorySize`), then run
the per-sample frame-accumulation loop. -/
def processBlock (sqrtQ : ℚ → ℚ) (transform : List ℚ → List ℚ)
    (now : ℤ) (s : Engine) (samples : List ℚ) : Engine :=
  let rms := getRMSLevel sqrtQ samples
  let s1 := { s with
    rmsLevel := rms
    rmsHistory := s.rmsHistory.set s.rmsHistoryPos rms
    rmsHistoryPos := (s.rmsHistoryPos + 1) % rmsHistorySize }
  samples.foldl (ingestSample sqrtQ transform now) s1

/-- `prepareToPlay(sampleRate, samplesPerBlock)`: stores the sample rate and
resets the frame cursor (the `samplesPerBlock` argument is unused). -/
def prepareToPlay (sampleRate : ℚ) (s : Engine) : Engine :=
  { s with currentSampleRate := sampleRate, fftPos := 0 }

/-- `startLogging`: clear the log, capture the session origin, raise the
recording flag. -/
def startLogging (now : ℤ) (s : Engine) : Engine :=
  { s with dataLog := [], loggingStartTime := now, isLogging := true }

/-- `stopLogging`: lower the recording flag. -/
def stopLogging (s : Engine) : Engine :=
  { s with isLogging := false }

/-- The CSV header literal of `exportToCSV`. -/
def csvHeader : String :=
  "Timestamp_Seconds,Activation_Score,Spectral_Centroid,Spectral_Harshness,Dynamic_Variability,Temporal_Unpredictability,RMS_Level"

/-- Model of `juce::String(value, decimalPlaces)`: fixed-point decimal
rendering with `decimalPlaces` fractional digits (round to nearest). -/
def formatFixed (q : ℚ) (decimalPlaces : ℕ) : String :=
  let scaled : ℤ := round (q * (10 : ℚ) ^ decimalPlaces)
  let sign := if scaled < 0 then "-" else ""
  let m := scaled.natAbs
  let ip := m / 10 ^ decimalPlaces
  let fp := m % 10 ^ decimalPlaces
  let fpStr := toString fp
  let pad := String.mk (List.replicate (decimalPlaces - fpStr.length) '0')
  sign ++ toString ip ++ "." ++ pad ++ fpStr

/-- One CSV data row of `exportToCSV`: timestamp to 3 decimals, score to 2,
the four features to 4, RMS to 6, terminated by a newline. -/
def csvRow (p : DataPoint) : String :=
  formatFixed p.timestamp 3 ++ "," ++
  formatFixed p.activationScore 2 ++ "," ++
  formatFixed p.spectralCentroid 4 ++ "," ++
  formatFixed p.spectralHarshness 4 ++ "," ++
  formatFixed p.dynamicVariability 4 ++ "," ++
  formatFixed p.temporalUnpredictability 4 ++ "," ++
  formatFixed p.rmsLevel 6 ++ "\n"

/-- `exportToCSV`: bail out (alert dialog only) when the log is empty,
otherwise accumulate header plus one row per data point in insertion order
and hand the blob to the external file-chooser sink. The engine state is
only read. -/
def exportToCSV (s : Engine) : Option String :=
  if s.dataLog.isEmpty then none
  else some (s.dataLog.foldl (fun acc p => acc ++ csvRow p) (csvHeader ++ "\n"))

/-- The operations the host / UI collaborators can invoke on the engine. -/
inductive EngineOp where
  | audioBlock (now : ℤ) (samples : List ℚ)
  | prepare (sampleRate : ℚ)
  | startRec (now : ℤ)
  | stopRec
  | exportCsv

/-- One engine step: the successor state and the optional export output.
`exportToCSV` performs no member writes, so its state component is the
input state. -/
def stepOp (sqrtQ : ℚ → ℚ) (transform : List ℚ → List ℚ)
    (s : Engine) : EngineOp → Engine × Option String
  | .audioBlock now samples => (processBlock sqrtQ transform now s samples, none)
  | .prepare sr => (prepareToPlay sr s, none)
  | .startRec now => (startLogging now s, none)
  | .stopRec => (stopLogging s, none)
  | .exportCsv => (s, exportToCSV s)

/-- The engine state reached from construction by a list of operations. -/
def runOps (sqrtQ : ℚ → ℚ) (transform : List ℚ → List ℚ)
    (ops : List EngineOp) : Engine :=
  ops.foldl (fun s op => (stepOp sqrtQ transform s op).1) initialState

/-- The sequence of `fftData[fftPos] = x; fftPos++` writes performed by the
per-sample loop for a list of samples starting at write position `p`. -/
def writeSeq (l : List ℚ) (p : ℕ) : List ℚ → List ℚ
  | [] => l
  | x :: xs => writeSeq (l.set p x) (p + 1) xs

/-- Invariant of a silent run after `n` ingested zero samples: frame and
history all zero, cursor at `n mod fftSize`, not recording, all features 0,
and the score still at its initial 50 until the first frame completes. -/
def SilentInv (n : ℕ) (s : Engine) : Prop :=
  s.fftData = List.replicate fftSize 0 ∧
  s.rmsHistory = List.replicate rmsHistorySize 0 ∧
  s.fftPos = n % fftSize ∧
  s.isLogging = false ∧
  s.spectralCentroid = 0 ∧
  s.spectralHarshness = 0 ∧
  s.dynamicVariability = 0 ∧
  s.temporalUnpredictability = 0 ∧
  s.acousticActivationScore = (if n < fftSize then 50 else 100)

/-- The documented bounds of the published metrics: the four normalized
features in `[0,1]` and the composite score in `[0,100]`. -/
def metricsBounded (s : Engine) : Prop :=
  0 ≤ s.spectralCentroid ∧ s.spectralCentroid ≤ 1 ∧
  0 ≤ s.spectralHarshness ∧ s.spectralHarshness ≤ 1 ∧
  0 ≤ s.dynamicVariability ∧ s.dynamicVariability ≤ 1 ∧
  0 ≤ s.temporalUnpredictability ∧ s.temporalUnpredictability ≤ 1 ∧
  0 ≤ s.acousticActivationScore ∧ s.acousticActivationScore ≤ 100

/-- A recording session: `startRecording()`, a sequence of timed audio
blocks, `stopRecording()`. -/
def recordingRun (sqrtQ : ℚ → ℚ) (transform : List ℚ → List ℚ)
    (t0 : ℤ) (pairs : List (ℤ × List ℚ)) : Engine :=
  stopLogging (pairs.foldl (fun t p => processBlock sqrtQ transform p.1 t p.2)
    (startLogging t0 initialState))

/-- A concrete data point used to exercise the non-empty-log branches. -/
def samplePoint : DataPoint :=
  { timestamp := 0, activationScore := 50, spectralCentroid := 0,
    spectralHarshness := 0, dynamicVariability := 0,
    temporalUnpredictability := 0, rmsLevel := 0 }

/-- A raw history-buffer storage state (entry 1 holds loudness 1, the rest
0) whose write position is 2, i.e. whose logical oldest-to-newest order is
its rotation by 2. -/
def rawBuf : List ℚ := List.set (List.replicate 100 0) 1 1

attribute [ext] AudioPluginAudioProcessor

/-! ### Basic lemmas about the definitions -/

lemma jlimit_mem (lo hi v : ℚ) (h : lo ≤ hi) :
    lo ≤ jlimit lo hi v ∧ jlimit lo hi v ≤ hi := by
  unfold jlimit
  split_ifs <;> constructor <;> linarith

lemma performFFTAnalysis_spectralCentroid (sq : ℚ → ℚ) (tr : List ℚ → List ℚ)
    (now : ℤ) (s : Engine) :
    (performFFTAnalysis sq tr now s).spectralCentroid =
      calculateSpectralCentroid (tr s.fftData) s.currentSampleRate := by
  unfold performFFTAnalysis
  dsimp only
  split <;> rfl

lemma performFFTAnalysis_spectralHarshness (sq : ℚ → ℚ) (tr : List ℚ → List ℚ)
    (now : ℤ) (s : Engine) :
    (performFFTAnalysis sq tr now s).spectralHarshness =
      calculateSpectralHarshness (tr s.fftData) s.currentSampleRate := by
  unfold performFFTAnalysis
  dsimp only
  split <;> rfl

lemma performFFTAnalysis_dynamicVariability (sq : ℚ → ℚ) (tr : List ℚ → List ℚ)
    (now : ℤ) (s : Engine) :
    (performFFTAnalysis sq tr now s).dynamicVariability =
      calculateDynamicVariability sq s.rmsHistory := by
  unfold performFFTAnalysis
  dsimp only
  split <;> rfl

lemma performFFTAnalysis_temporalUnpredictability (sq : ℚ → ℚ) (tr : List ℚ → List ℚ)
    (now : ℤ) (s : Engine) :
    (performFFTAnalysis sq tr now s).temporalUnpredictability =
      calculateTemporalUnpredictability s.rmsHistory := by
  unfold performFFTAnalysis
  dsimp only
  split <;> rfl

lemma performFFTAnalysis_score (sq : ℚ → ℚ) (tr : List ℚ → List ℚ)
    (now : ℤ) (s : Engine) :
    (performFFTAnalysis sq tr now s).acousticActivationScore =
      calculateAcousticActivationScore
        (calculateSpectralCentroid (tr s.fftData) s.currentSampleRate)
        (calculateSpectralHarshness (tr s.fftData) s.currentSampleRate)
        (calculateDynamicVariability sq s.rmsHistory)
        (calculateTemporalUnpredictability s.rmsHistory) := by
  unfold performFFTAnalysis
  dsimp only
  split <;> rfl

lemma performFFTAnalysis_fftData (sq : ℚ → ℚ) (tr : List ℚ → List ℚ)
    (now : ℤ) (s : Engine) :
    (performFFTAnalysis sq tr now s).fftData = s.fftData := by
  unfold performFFTAnalysis
  dsimp only
  split <;> rfl

lemma performFFTAnalysis_fftPos (sq : ℚ → ℚ) (tr : List ℚ → List ℚ)
    (now : ℤ) (s : Engine) :
    (performFFTAnalysis sq tr now s).fftPos = s.fftPos := by
  unfold performFFTAnalysis
  dsimp only
  split <;> rfl

lemma performFFTAnalysis_rmsHistory (sq : ℚ → ℚ) (tr : List ℚ → List ℚ)
    (now : ℤ) (s : Engine) :
    (performFFTAnalysis sq tr now s).rmsHistory = s.rmsHistory := by
  unfold performFFTAnalysis
  dsimp only
  split <;> rfl

lemma performFFTAnalysis_rmsHistoryPos (sq : ℚ → ℚ) (tr : List ℚ → List ℚ)
    (now : ℤ) (s : Engine) :
    (performFFTAnalysis sq tr now s).rmsHistoryPos = s.rmsHistoryPos := by
  unfold performFFTAnalysis
  dsimp only
  split <;> rfl

lemma performFFTAnalysis_rmsLevel (sq : ℚ → ℚ) (tr : List ℚ → List ℚ)
    (now : ℤ) (s : Engine) :
    (performFFTAnalysis sq tr now s).rmsLevel = s.rmsLevel := by
  unfold performFFTAnalysis
  dsimp only
  split <;> rfl

lemma performFFTAnalysis_currentSampleRate (sq : ℚ → ℚ) (tr : List ℚ → List ℚ)
    (now : ℤ) (s : Engine) :
    (performFFTAnalysis sq tr now s).currentSampleRate = s.currentSampleRate := by
  unfold performFFTAnalysis
  dsimp only
  split <;> rfl

lemma performFFTAnalysis_isLogging (sq : ℚ → ℚ) (tr : List ℚ → List ℚ)
    (now : ℤ) (s : Engine) :
    (performFFTAnalysis sq tr now s).isLogging = s.isLogging := by
  unfold performFFTAnalysis
  dsimp only
  split <;> rfl

lemma performFFTAnalysis_loggingStartTime (sq : ℚ → ℚ) (tr : List ℚ → List ℚ)
    (now : ℤ) (s : Engine) :
    (performFFTAnalysis sq tr now s).loggingStartTime = s.loggingStartTime := by
  unfold performFFTAnalysis
  dsimp only
  split <;> rfl

lemma performFFTAnalysis_dataLog (sq : ℚ → ℚ) (tr : List ℚ → List ℚ)
    (now : ℤ) (s : Engine) :
    (performFFTAnalysis sq tr now s).dataLog =
      if s.isLogging then
        s.dataLog ++
          [{ timestamp := ((now - s.loggingStartTime : ℤ) : ℚ) / 1000
             activationScore := (performFFTAnalysis sq tr now s).acousticActivationScore
             spectralCentroid := (performFFTAnalysis sq tr now s).spectralCentroid
             spectralHarshness := (performFFTAnalysis sq tr now s).spectralHarshness
             dynamicVariability := (performFFTAnalysis sq tr now s).dynamicVariability
             temporalUnpredictability := (performFFTAnalysis sq tr now s).temporalUnpredictability
             rmsLevel := s.rmsLevel }]
      else s.dataLog := by
  rw [performFFTAnalysis_score, performFFTAnalysis_spectralCentroid,
    performFFTAnalysis_spectralHarshness, performFFTAnalysis_dynamicVariability,
    performFFTAnalysis_temporalUnpredictability]
  unfold performFFTAnalysis logDataPoint
  dsimp only
  split <;> rename_i hlog
  · simp only [hlog, if_true]
  · simp only [Bool.not_eq_true] at hlog
    simp only [hlog, Bool.false_eq_true, if_false]

/-! ### Frame-accumulation lemmas -/

lemma writeSeq_concat : ∀ (ys : List ℚ) (l : List ℚ) (p : ℕ) (y : ℚ),
    writeSeq l p (ys ++ [y]) = (writeSeq l p ys).set (p + ys.length) y
  | [], l, p, y => by simp [writeSeq]
  | x :: xs, l, p, y => by
    simp only [List.cons_append, writeSeq, List.append_eq]
    rw [writeSeq_concat xs, List.length_cons]
    congr 1
    omega

lemma ingestSample_no_fire (sq : ℚ → ℚ) (tr : List ℚ → List ℚ) (now : ℤ)
    (s : Engine) (x : ℚ) (h : s.fftPos + 1 < fftSize) :
    ingestSample sq tr now s x =
      { s with fftData := s.fftData.set s.fftPos x, fftPos := s.fftPos + 1 } := by
  unfold ingestSample
  dsimp only
  rw [if_neg (by omega)]

lemma ingestSample_fire (sq : ℚ → ℚ) (tr : List ℚ → List ℚ) (now : ℤ)
    (s : Engine) (x : ℚ) (h : s.fftPos + 1 = fftSize) :
    ingestSample sq tr now s x =
      performFFTAnalysis sq tr now
        { s with fftData := s.fftData.set s.fftPos x, fftPos := 0 } := by
  unfold ingestSample
  dsimp only
  rw [if_pos (by omega)]

lemma foldl_ingest_no_fire (sq : ℚ → ℚ) (tr : List ℚ → List ℚ) (now : ℤ) :
    ∀ (xs : List ℚ) (s : Engine), s.fftPos + xs.length < fftSize →
    xs.foldl (ingestSample sq tr now) s =
      { s with fftData := writeSeq s.fftData s.fftPos xs, fftPos := s.fftPos + xs.length }
  | [], s, h => rfl
  | x :: xs, s, h => by
    have hlen : s.fftPos + (xs.length + 1) < fftSize := by
      simpa [List.length_cons] using h
    rw [List.foldl_cons, ingestSample_no_fire sq tr now s x (by omega)]
    rw [foldl_ingest_no_fire sq tr now xs _ (by dsimp only; omega)]
    dsimp only
    rw [show s.fftPos + 1 + xs.length = s.fftPos + (x :: xs).length from by
      rw [List.length_cons]; omega]
    rfl

lemma foldl_ingest_fire (sq : ℚ → ℚ) (tr : List ℚ → List ℚ) (now : ℤ)
    (xs : List ℚ) (s : Engine) (hne : xs ≠ [])
    (hfill : s.fftPos + xs.length = fftSize) :
    xs.foldl (ingestSample sq tr now) s =
      performFFTAnalysis sq tr now
        { s with fftData := writeSeq s.fftData s.fftPos xs, fftPos := 0 } := by
  rcases List.eq_nil_or_concat xs with h | ⟨ys, y, h⟩
  · exact absurd h hne
  · subst h
    rw [List.concat_eq_append] at hfill ⊢
    have hfill' : s.fftPos + (ys.length + 1) = fftSize := by
      simpa [List.length_append] using hfill
    rw [List.foldl_append, List.foldl_cons, List.foldl_nil]
    rw [foldl_ingest_no_fire sq tr now ys s (by omega)]
    rw [ingestSample_fire sq tr now
      { s with fftData := writeSeq s.fftData s.fftPos ys, fftPos := s.fftPos + ys.length }
      y (by show s.fftPos + ys.length + 1 = fftSize; omega)]
    congr 1
    rw [writeSeq_concat]

/-! ### Silence lemmas -/

lemma getD_replicate_zero (n i : ℕ) : (List.replicate n (0:ℚ)).getD i 0 = 0 := by
  rw [List.getD_eq_getElem?_getD, List.getElem?_replicate]
  split <;> rfl

lemma calculateSpectralCentroid_zero (spec : List ℚ) (rate : ℚ)
    (h : ∀ i, spec.getD i 0 = 0) : calculateSpectralCentroid spec rate = 0 := by
  unfold calculateSpectralCentroid
  dsimp only
  have hden : Finset.sum (Finset.range (fftSize / 2)) (fun i => spec.getD i 0) = 0 :=
    Finset.sum_eq_zero (fun i _ => h i)
  rw [hden]
  norm_num [jlimit]

lemma calculateSpectralHarshness_zero (spec : List ℚ) (rate : ℚ)
    (h : ∀ i, spec.getD i 0 = 0) : calculateSpectralHarshness spec rate = 0 := by
  unfold calculateSpectralHarshness
  dsimp only
  have hlow : Finset.sum (Finset.range (fftSize / 2))
      (fun i => if (i : ℤ) < ⌊(2000 * (fftSize : ℚ)) / rate⌋ then spec.getD i 0 else 0) = 0 :=
    Finset.sum_eq_zero (fun i _ => by rw [h i]; exact ite_self 0)
  have hhigh : Finset.sum (Finset.range (fftSize / 2))
      (fun i => if (i : ℤ) < ⌊(2000 * (fftSize : ℚ)) / rate⌋ then 0 else spec.getD i 0) = 0 :=
    Finset.sum_eq_zero (fun i _ => by rw [h i]; exact ite_self 0)
  rw [hlow, hhigh]
  norm_num [jlimit]

lemma calculateDynamicVariability_zero (sq : ℚ → ℚ) (hsq : sq 0 = 0) :
    calculateDynamicVariability sq (List.replicate rmsHistorySize 0) = 0 := by
  unfold calculateDynamicVariability
  dsimp only
  have hvar : ((List.replicate rmsHistorySize (0:ℚ)).map
      (fun x => (x - (List.replicate rmsHistorySize (0:ℚ)).sum / (rmsHistorySize:ℚ)) *
        (x - (List.replicate rmsHistorySize (0:ℚ)).sum / (rmsHistorySize:ℚ)))).sum /
      (rmsHistorySize:ℚ) = 0 := by
    simp [List.map_replicate, List.sum_replicate]
  rw [hvar, hsq]
  norm_num [jlimit]

lemma calculateTemporalUnpredictability_zero :
    calculateTemporalUnpredictability (List.replicate rmsHistorySize 0) = 0 := by
  unfold calculateTemporalUnpredictability
  dsimp only
  rw [Finset.sum_eq_zero (fun i _ => by
    rw [getD_replicate_zero, getD_replicate_zero]; simp)]
  norm_num [jlimit]

lemma calculateAcousticActivationScore_calm :
    calculateAcousticActivationScore 0 0 0 0 = 100 := by
  unfold calculateAcousticActivationScore jlimit
  norm_num

lemma getRMSLevel_zero (sq : ℚ → ℚ) (hsq : sq 0 = 0) (b : List ℚ)
    (hb : ∀ x ∈ b, x = 0) : getRMSLevel sq b = 0 := by
  unfold getRMSLevel
  split
  · rfl
  · have hz : (b.map (fun x => x * x)).sum = 0 := by
      apply List.sum_eq_zero
      intro y hy
      obtain ⟨x, hxb, hfx⟩ := List.mem_map.mp hy
      rw [← hfx, hb x hxb]
      exact zero_mul _
    rw [hz, zero_div, hsq]

lemma SilentInv_ingest (sq : ℚ → ℚ) (tr : List ℚ → List ℚ) (now : ℤ)
    (hsq : sq 0 = 0) (htr : ∀ i, (tr (List.replicate fftSize 0)).getD i 0 = 0)
    (n : ℕ) (s : Engine) (hInv : SilentInv n s) :
    SilentInv (n + 1) (ingestSample sq tr now s 0) := by
  obtain ⟨hframe, hhist, hpos, hlog, hc, hh, hv, hu, hscore⟩ := hInv
  have h2048 : fftSize = 2048 := rfl
  by_cases hfire : s.fftPos + 1 = fftSize
  · rw [ingestSample_fire sq tr now s 0 hfire]
    have hframe1 : s.fftData.set s.fftPos 0 = List.replicate fftSize 0 := by
      rw [hframe, List.set_replicate_self]
    refine ⟨?_, ?_, ?_, ?_, ?_, ?_, ?_, ?_, ?_⟩
    · rw [performFFTAnalysis_fftData]; dsimp only; exact hframe1
    · rw [performFFTAnalysis_rmsHistory]; dsimp only; exact hhist
    · rw [performFFTAnalysis_fftPos]; dsimp only
      rw [h2048] at hpos hfire ⊢
      omega
    · rw [performFFTAnalysis_isLogging]; dsimp only; exact hlog
    · rw [performFFTAnalysis_spectralCentroid]; dsimp only
      rw [hframe1]
      exact calculateSpectralCentroid_zero _ _ htr
    · rw [performFFTAnalysis_spectralHarshness]; dsimp only
      rw [hframe1]
      exact calculateSpectralHarshness_zero _ _ htr
    · rw [performFFTAnalysis_dynamicVariability]; dsimp only
      rw [hhist]
      exact calculateDynamicVariability_zero sq hsq
    · rw [performFFTAnalysis_temporalUnpredictability]; dsimp only
      rw [hhist]
      exact calculateTemporalUnpredictability_zero
    · rw [performFFTAnalysis_score]; dsimp only
      rw [hframe1, hhist, calculateSpectralCentroid_zero _ _ htr,
        calculateSpectralHarshness_zero _ _ htr,
        calculateDynamicVariability_zero sq hsq,
        calculateTemporalUnpredictability_zero,
        calculateAcousticActivationScore_calm]
      rw [if_neg (by rw [h2048] at hpos hfire ⊢; omega)]
  · have hlt : s.fftPos + 1 < fftSize := by
      have hmod : n % fftSize < fftSize := Nat.mod_lt n (by rw [h2048]; norm_num)
      rw [h2048] at hpos hfire hmod ⊢
      omega
    rw [ingestSample_no_fire sq tr now s 0 hlt]
    refine ⟨?_, ?_, ?_, ?_, ?_, ?_, ?_, ?_, ?_⟩ <;> dsimp only
    · rw [hframe, List.set_replicate_self]
    · exact hhist
    · rw [hpos] at hfire ⊢
      rw [h2048] at hfire ⊢
      omega
    · exact hlog
    · exact hc
    · exact hh
    · exact hv
    · exact hu
    · rw [hscore]
      by_cases hn : n + 1 < fftSize
      · rw [if_pos (by rw [h2048] at hn ⊢; omega), if_pos hn]
      · rw [if_neg ?_, if_neg hn]
        rw [hpos] at hfire
        rw [h2048] at hfire hn ⊢
        omega

lemma SilentInv_fold (sq : ℚ → ℚ) (tr : List ℚ → List ℚ) (now : ℤ)
    (hsq : sq 0 = 0) (htr : ∀ i, (tr (List.replicate fftSize 0)).getD i 0 = 0) :
    ∀ (b : List ℚ) (n : ℕ) (s : Engine), (∀ x ∈ b, x = 0) → SilentInv n s →
      SilentInv (n + b.length) (b.foldl (ingestSample sq tr now) s)
  | [], n, s, hb, hInv => by simpa using hInv
  | x :: xs, n, s, hb, hInv => by
    have hx : x = 0 := hb x (by simp)
    rw [List.foldl_cons, hx]
    have h1 := SilentInv_ingest sq tr now hsq htr n s hInv
    have h2 := SilentInv_fold sq tr now hsq htr xs (n + 1) _
      (fun y hy => hb y (by simp [hy])) h1
    rw [List.length_cons, show n + (xs.length + 1) = (n + 1) + xs.length from by omega]
    exact h2

lemma SilentInv_processBlock (sq : ℚ → ℚ) (tr : List ℚ → List ℚ)
    (hsq : sq 0 = 0) (htr : ∀ i, (tr (List.replicate fftSize 0)).getD i 0 = 0)
    (now : ℤ) (n : ℕ) (s : Engine) (b : List ℚ)
    (hb : ∀ x ∈ b, x = 0) (hInv : SilentInv n s) :
    SilentInv (n + b.length) (processBlock sq tr now s b) := by
  obtain ⟨hframe, hhist, hpos, hlog, hc, hh, hv, hu, hscore⟩ := hInv
  unfold processBlock
  dsimp only
  apply SilentInv_fold sq tr now hsq htr b n _ hb
  refine ⟨hframe, ?_, hpos, hlog, hc, hh, hv, hu, hscore⟩
  dsimp only
  rw [hhist, getRMSLevel_zero sq hsq b hb, List.set_replicate_self]

lemma SilentInv_run (sq : ℚ → ℚ) (tr : List ℚ → List ℚ)
    (hsq : sq 0 = 0) (htr : ∀ i, (tr (List.replicate fftSize 0)).getD i 0 = 0) :
    ∀ (blocks : List (ℤ × List ℚ)) (n : ℕ) (s : Engine),
      (∀ p ∈ blocks, ∀ x ∈ p.2, x = 0) → SilentInv n s →
      SilentInv (n + (blocks.map (fun p => p.2.length)).sum)
        (blocks.foldl (fun t p => processBlock sq tr p.1 t p.2) s)
  | [], n, s, hb, hInv => by simpa using hInv
  | p :: ps, n, s, hb, hInv => by
    rw [List.foldl_cons, List.map_cons, List.sum_cons]
    have h1 := SilentInv_processBlock sq tr hsq htr p.1 n s p.2 (hb p (by simp)) hInv
    have h2 := SilentInv_run sq tr hsq htr ps (n + p.2.length) _
      (fun q hq => hb q (by simp [hq])) h1
    rw [show n + (p.2.length + (ps.map (fun p => p.2.length)).sum) =
      (n + p.2.length) + (ps.map (fun p => p.2.length)).sum from by omega]
    exact h2

/-! ### History-buffer spike lemmas -/

lemma getD_set_rep_self (j : ℕ) (v : ℚ) (hj : j < 100) :
    ((List.replicate 100 (0:ℚ)).set j v).getD j 0 = v := by
  have hl : j < (List.replicate 100 (0:ℚ)).length := by simpa using hj
  rw [List.getD_eq_getElem?_getD, List.getElem?_set_self hl]
  rfl

lemma getD_set_rep_ne (j i : ℕ) (v : ℚ) (h : j ≠ i) :
    ((List.replicate 100 (0:ℚ)).set j v).getD i 0 = 0 := by
  rw [List.getD_eq_getElem?_getD, List.getElem?_set_ne h, List.getElem?_replicate]
  split <;> rfl

/-- Unpredictability of a history that is all zero except one interior
entry: two non-zero consecutive differences. -/
lemma calcU_set_rep_mid (j : ℕ) (v : ℚ) (h1 : 1 ≤ j) (h2 : j ≤ 98) :
    calculateTemporalUnpredictability ((List.replicate 100 (0:ℚ)).set j v) =
      jlimit 0 1 ((|v| + |v|) / 99 * 50) := by
  unfold calculateTemporalUnpredictability
  dsimp only
  have hsum : Finset.sum (Finset.Ico 1 rmsHistorySize)
      (fun i => |((List.replicate 100 (0:ℚ)).set j v).getD i 0 -
        ((List.replicate 100 (0:ℚ)).set j v).getD (i-1) 0|) = |v| + |v| := by
    rw [Finset.sum_eq_add_of_mem j (j+1)
      (by simp only [Finset.mem_Ico, rmsHistorySize]; omega)
      (by simp only [Finset.mem_Ico, rmsHistorySize]; omega)
      (by omega)
      ?_]
    · simp only [Nat.add_sub_cancel]
      rw [getD_set_rep_self j v (by omega), getD_set_rep_ne j (j-1) v (by omega),
        getD_set_rep_ne j (j+1) v (by omega)]
      simp [abs_sub_comm]
    · intro c hc hne
      rw [Finset.mem_Ico] at hc
      have h100 : rmsHistorySize = 100 := rfl
      rw [h100] at hc
      rw [getD_set_rep_ne j c v (by omega), getD_set_rep_ne j (c-1) v (by omega)]
      simp
  rw [hsum]
  norm_num [rmsHistorySize]

/-- Unpredictability of a history that is all zero except the first entry:
one non-zero consecutive difference. -/
lemma calcU_set_rep_first (v : ℚ) :
    calculateTemporalUnpredictability ((List.replicate 100 (0:ℚ)).set 0 v) =
      jlimit 0 1 (|v| / 99 * 50) := by
  unfold calculateTemporalUnpredictability
  dsimp only
  have hsum : Finset.sum (Finset.Ico 1 rmsHistorySize)
      (fun i => |((List.replicate 100 (0:ℚ)).set 0 v).getD i 0 -
        ((List.replicate 100 (0:ℚ)).set 0 v).getD (i-1) 0|) = |v| := by
    rw [Finset.sum_eq_single_of_mem 1
      (by simp only [Finset.mem_Ico, rmsHistorySize]; omega)
      ?_]
    · rw [show (1:ℕ) - 1 = 0 from rfl]
      rw [getD_set_rep_ne 0 1 v (by omega), getD_set_rep_self 0 v (by omega)]
      simp
    · intro c hc hne
      rw [Finset.mem_Ico] at hc
      have h100 : rmsHistorySize = 100 := rfl
      rw [h100] at hc
      rw [getD_set_rep_ne 0 c v (by omega), getD_set_rep_ne 0 (c-1) v (by omega)]
      simp
  rw [hsum]
  norm_num [rmsHistorySize]

/-- Unpredictability of a history that is all zero except the last entry:
one non-zero consecutive difference. -/
lemma calcU_set_rep_last (v : ℚ) :
    calculateTemporalUnpredictability ((List.replicate 100 (0:ℚ)).set 99 v) =
      jlimit 0 1 (|v| / 99 * 50) := by
  unfold calculateTemporalUnpredictability
  dsimp only
  have hsum : Finset.sum (Finset.Ico 1 rmsHistorySize)
      (fun i => |((List.replicate 100 (0:ℚ)).set 99 v).getD i 0 -
        ((List.replicate 100 (0:ℚ)).set 99 v).getD (i-1) 0|) = |v| := by
    rw [Finset.sum_eq_single_of_mem 99
      (by simp only [Finset.mem_Ico, rmsHistorySize]; omega)
      ?_]
    · rw [show (99:ℕ) - 1 = 98 from rfl]
      rw [getD_set_rep_self 99 v (by omega), getD_set_rep_ne 99 98 v (by omega)]
      simp
    · intro c hc hne
      rw [Finset.mem_Ico] at hc
      have h100 : rmsHistorySize = 100 := rfl
      rw [h100] at hc
      rw [getD_set_rep_ne 99 c v (by omega), getD_set_rep_ne 99 (c-1) v (by omega)]
      simp
  rw [hsum]
  norm_num [rmsHistorySize]

/-! ### Block-ingestion characterizations -/

lemma processBlock_fire_proj (sq : ℚ → ℚ) (tr : List ℚ → List ℚ) (now : ℤ)
    (s : Engine) (b : List ℚ) (hb : b ≠ [])
    (hfill : s.fftPos + b.length = fftSize) :
    (processBlock sq tr now s b).spectralCentroid =
      calculateSpectralCentroid (tr (writeSeq s.fftData s.fftPos b)) s.currentSampleRate ∧
    (processBlock sq tr now s b).spectralHarshness =
      calculateSpectralHarshness (tr (writeSeq s.fftData s.fftPos b)) s.currentSampleRate ∧
    (processBlock sq tr now s b).dynamicVariability =
      calculateDynamicVariability sq (s.rmsHistory.set s.rmsHistoryPos (getRMSLevel sq b)) ∧
    (processBlock sq tr now s b).temporalUnpredictability =
      calculateTemporalUnpredictability (s.rmsHistory.set s.rmsHistoryPos (getRMSLevel sq b)) := by
  unfold processBlock
  dsimp only
  rw [foldl_ingest_fire sq tr now b _ hb (by show s.fftPos + b.length = fftSize; exact hfill)]
  refine ⟨?_, ?_, ?_, ?_⟩
  · rw [performFFTAnalysis_spectralCentroid]
  · rw [performFFTAnalysis_spectralHarshness]
  · rw [performFFTAnalysis_dynamicVariability]
  · rw [performFFTAnalysis_temporalUnpredictability]

lemma singleton_blocks_no_fire (sq : ℚ → ℚ) (tr : List ℚ → List ℚ) (now : ℤ) :
    ∀ (xs : List ℚ) (s : Engine), s.fftPos + xs.length < fftSize →
    ∃ r h q, (xs.map (fun x => [x])).foldl (fun t b => processBlock sq tr now t b) s =
      { s with
        fftData := writeSeq s.fftData s.fftPos xs
        fftPos := s.fftPos + xs.length
        rmsLevel := r
        rmsHistory := h
        rmsHistoryPos := q }
  | [], s, h => ⟨s.rmsLevel, s.rmsHistory, s.rmsHistoryPos, rfl⟩
  | x :: xs, s, h => by
    have hlen : (s.fftPos + 1) + xs.length < fftSize := by
      rw [List.length_cons] at h
      omega
    rw [List.map_cons, List.foldl_cons]
    have hstep : processBlock sq tr now s [x] =
        { s with
          fftData := s.fftData.set s.fftPos x
          fftPos := s.fftPos + 1
          rmsLevel := getRMSLevel sq [x]
          rmsHistory := s.rmsHistory.set s.rmsHistoryPos (getRMSLevel sq [x])
          rmsHistoryPos := (s.rmsHistoryPos + 1) % rmsHistorySize } := by
      unfold processBlock
      dsimp only
      rw [List.foldl_cons, List.foldl_nil,
        ingestSample_no_fire sq tr now _ x (by show s.fftPos + 1 < fftSize; omega)]
    obtain ⟨r, hh, q, heq⟩ := singleton_blocks_no_fire sq tr now xs
      (processBlock sq tr now s [x])
      (by rw [hstep]; show (s.fftPos + 1) + xs.length < fftSize; omega)
    refine ⟨r, hh, q, ?_⟩
    rw [heq, hstep]
    dsimp only
    rw [show (s.fftPos + 1) + xs.length = s.fftPos + (x :: xs).length from by
      rw [List.length_cons]; omega]
    rfl

lemma zero_singleton_blocks : ∀ (k : ℕ), k ≤ 2047 →
    (List.replicate k [(0:ℚ)]).foldl
      (fun t b => processBlock (fun q => q) (fun l => l) 0 t b) initialState =
      { initialState with fftPos := k, rmsHistoryPos := k % 100 }
  | 0, _ => rfl
  | k + 1, hk => by
    have hrms : getRMSLevel (fun q => q) [(0:ℚ)] = 0 := by
      unfold getRMSLevel
      norm_num
    rw [List.replicate_succ', List.foldl_append, zero_singleton_blocks k (by omega),
      List.foldl_cons, List.foldl_nil]
    unfold processBlock
    dsimp only
    rw [List.foldl_cons, List.foldl_nil, hrms,
      ingestSample_no_fire _ _ _ _ _ (by show k + 1 < fftSize; show k + 1 < 2048; omega)]
    apply AudioPluginAudioProcessor.ext <;> dsimp only
    all_goals try rfl
    · show ((List.replicate fftSize (0:ℚ)).set k 0) = List.replicate fftSize 0
      exact List.set_replicate_self
    · show ((List.replicate rmsHistorySize (0:ℚ)).set (k % 100) 0) =
        List.replicate rmsHistorySize 0
      exact List.set_replicate_self
    · show (k % 100 + 1) % 100 = (k + 1) % 100
      omega

/-! ### Claim theorems -/

/-- C1: for every all-zero input (delivered as any sequence of timed
blocks totalling at least one full frame), once a frame has completed the
published centroid, harshness, variability and unpredictability are each
exactly 0 (every degenerate-denominator guard takes its 0 branch) and the
composite activation score is exactly 100. -/
theorem claim1_silent_input (sq : ℚ → ℚ) (tr : List ℚ → List ℚ)
    (hsq : sq 0 = 0)
    (htr : ∀ i, (tr (List.replicate fftSize 0)).getD i 0 = 0)
    (blocks : List (ℤ × List ℚ))
    (hz : ∀ p ∈ blocks, ∀ x ∈ p.2, x = 0)
    (hn : fftSize ≤ (blocks.map (fun p => p.2.length)).sum) :
    (blocks.foldl (fun t p => processBlock sq tr p.1 t p.2) initialState).spectralCentroid = 0 ∧
    (blocks.foldl (fun t p => processBlock sq tr p.1 t p.2) initialState).spectralHarshness = 0 ∧
    (blocks.foldl (fun t p => processBlock sq tr p.1 t p.2) initialState).dynamicVariability = 0 ∧
    (blocks.foldl (fun t p => processBlock sq tr p.1 t p.2) initialState).temporalUnpredictability = 0 ∧
    (blocks.foldl (fun t p => processBlock sq tr p.1 t p.2) initialState).acousticActivationScore = 100 := by
  have h0 : SilentInv 0 initialState := by
    refine ⟨rfl, rfl, rfl, rfl, rfl, rfl, rfl, rfl, ?_⟩
    rw [if_pos (by norm_num [fftSize])]
    rfl
  have hfin := SilentInv_run sq tr hsq htr blocks 0 initialState hz h0
  obtain ⟨_, _, _, _, hc, hh, hv, hu, hscore⟩ := hfin
  refine ⟨hc, hh, hv, hu, ?_⟩
  rw [hscore]
  simp only [Nat.zero_add]
  rw [if_neg (not_lt.mpr hn)]

theorem claim1_silent_input_witness :
    (∀ p ∈ [((0:ℤ), List.replicate fftSize (0:ℚ))], ∀ x ∈ p.2, x = 0) ∧
    (([((0:ℤ), List.replicate fftSize (0:ℚ))].foldl
      (fun t p => processBlock (fun q => q) (fun l => l) p.1 t p.2)
      initialState).spectralCentroid = 0 ∧
    ([((0:ℤ), List.replicate fftSize (0:ℚ))].foldl
      (fun t p => processBlock (fun q => q) (fun l => l) p.1 t p.2)
      initialState).spectralHarshness = 0 ∧
    ([((0:ℤ), List.replicate fftSize (0:ℚ))].foldl
      (fun t p => processBlock (fun q => q) (fun l => l) p.1 t p.2)
      initialState).dynamicVariability = 0 ∧
    ([((0:ℤ), List.replicate fftSize (0:ℚ))].foldl
      (fun t p => processBlock (fun q => q) (fun l => l) p.1 t p.2)
      initialState).temporalUnpredictability = 0 ∧
    ([((0:ℤ), List.replicate fftSize (0:ℚ))].foldl
      (fun t p => processBlock (fun q => q) (fun l => l) p.1 t p.2)
      initialState).acousticActivationScore = 100) :=
  ⟨by
    intro p hp x hx
    rw [List.mem_singleton] at hp
    subst hp
    exact List.eq_of_mem_replicate hx,
   claim1_silent_input (fun q => q) (fun l => l) rfl
     (fun i => getD_replicate_zero fftSize i)
     [((0:ℤ), List.replicate fftSize (0:ℚ))]
     (by
       intro p hp x hx
       rw [List.mem_singleton] at hp
       subst hp
       exact List.eq_of_mem_replicate hx)
     (by simp)⟩

/-- C2 (amended): feeding exactly one frame of samples in a single block
versus as 2048 one-sample blocks yields the same frame-derived metrics
(spectral centroid and spectral harshness, which depend only on the
accumulated frame); the loudness, dynamic variability, temporal
unpredictability — and hence the composite score — may differ, because the
RMS history is updated once per block, not once per frame. -/
theorem claim2_frame_derived_metrics_agree (sq : ℚ → ℚ) (tr : List ℚ → List ℚ)
    (now₁ now₂ : ℤ) (xs : List ℚ) (hlen : xs.length = fftSize) :
    (processBlock sq tr now₁ initialState xs).spectralCentroid =
      ((xs.map (fun x => [x])).foldl
        (fun t b => processBlock sq tr now₂ t b) initialState).spectralCentroid ∧
    (processBlock sq tr now₁ initialState xs).spectralHarshness =
      ((xs.map (fun x => [x])).foldl
        (fun t b => processBlock sq tr now₂ t b) initialState).spectralHarshness := by
  have hne : xs ≠ [] := by
    intro h
    rw [h] at hlen
    simp [fftSize] at hlen
  rcases List.eq_nil_or_concat xs with hnil | ⟨ys, y, hconcat⟩
  · exact absurd hnil hne
  subst hconcat
  rw [List.concat_eq_append] at hlen hne ⊢
  have hys : ys.length + 1 = fftSize := by simpa [List.length_append] using hlen
  obtain ⟨h1c, h1h, -, -⟩ := processBlock_fire_proj sq tr now₁ initialState (ys ++ [y]) hne
    (by show (0:ℕ) + (ys ++ [y]).length = fftSize; rw [Nat.zero_add]; exact hlen)
  obtain ⟨r, hh, q, heq⟩ := singleton_blocks_no_fire sq tr now₂ ys initialState
    (by show (0:ℕ) + ys.length < fftSize; omega)
  rw [List.map_append, List.foldl_append, heq]
  rw [show (List.map (fun x => ([x] : List ℚ)) [y]) = [[y]] from rfl]
  rw [List.foldl_cons, List.foldl_nil]
  obtain ⟨h2c, h2h, -, -⟩ := processBlock_fire_proj sq tr now₂
    ({ initialState with
        fftData := writeSeq initialState.fftData initialState.fftPos ys
        fftPos := initialState.fftPos + ys.length
        rmsLevel := r
        rmsHistory := hh
        rmsHistoryPos := q })
    [y] (by simp)
    (by show (0:ℕ) + ys.length + 1 = fftSize; rw [Nat.zero_add]; exact hys)
  rw [h1c, h1h, h2c, h2h]
  dsimp only
  have hframe : writeSeq (writeSeq initialState.fftData initialState.fftPos ys)
      (initialState.fftPos + ys.length) [y] =
      writeSeq initialState.fftData initialState.fftPos (ys ++ [y]) := by
    rw [writeSeq_concat]
    rfl
  rw [hframe]
  exact ⟨rfl, rfl⟩

theorem claim2_frame_derived_metrics_agree_witness :
    (processBlock (fun q => q) (fun l => l) 0 initialState
        (List.replicate fftSize (0:ℚ))).spectralCentroid =
      (((List.replicate fftSize (0:ℚ)).map (fun x => [x])).foldl
        (fun t b => processBlock (fun q => q) (fun l => l) 0 t b)
        initialState).spectralCentroid ∧
    (processBlock (fun q => q) (fun l => l) 0 initialState
        (List.replicate fftSize (0:ℚ))).spectralHarshness =
      (((List.replicate fftSize (0:ℚ)).map (fun x => [x])).foldl
        (fun t b => processBlock (fun q => q) (fun l => l) 0 t b)
        initialState).spectralHarshness :=
  claim2_frame_derived_metrics_agree (fun q => q) (fun l => l) 0 0
    (List.replicate fftSize (0:ℚ)) (by simp)

/-- C2 (counterexample): ingesting the 2048 samples `[0, …, 0, 1]` as one
block versus as 2048 one-sample blocks leaves different published temporal
unpredictability values (the block RMS history receives one push versus
2048 pushes), so the full MetricSets differ, refuting the claim. -/
theorem claim2_counterexample :
    (processBlock (fun q => q) (fun l => l) 0 initialState
        (List.replicate 2047 0 ++ [1])).temporalUnpredictability ≠
    (((List.replicate 2047 (0:ℚ) ++ [1]).map (fun x => [x])).foldl
        (fun t b => processBlock (fun q => q) (fun l => l) 0 t b)
        initialState).temporalUnpredictability := by
  set xs : List ℚ := List.replicate 2047 (0:ℚ) ++ [1] with hxs
  have hL : xs.length = 2048 := by
    rw [hxs, List.length_append, List.length_replicate]
    rfl
  have hne : xs ≠ [] := by
    intro h
    rw [h] at hL
    exact absurd hL (by norm_num)
  obtain ⟨-, -, -, h1u⟩ := processBlock_fire_proj (fun q => q) (fun l => l) 0
    initialState xs hne
    (by show (0:ℕ) + xs.length = fftSize
        rw [Nat.zero_add, hL]
        rfl)
  rw [h1u]
  have hrms1 : getRMSLevel (fun q => q) xs = 1/2048 := by
    unfold getRMSLevel
    rw [if_neg (by rw [hL]; norm_num), hL, hxs]
    simp only [List.map_append, List.map_replicate, List.map_cons, List.map_nil,
      List.sum_append, List.sum_replicate, List.sum_cons, List.sum_nil,
      zero_mul, smul_zero, one_mul]
    norm_num
  rw [hrms1]
  have e1 : initialState.rmsHistory.set initialState.rmsHistoryPos ((1:ℚ)/2048) =
      (List.replicate 100 (0:ℚ)).set 0 (1/2048) := rfl
  rw [e1, calcU_set_rep_first (1/2048)]
  rw [hxs, List.map_append, List.map_replicate, List.foldl_append]
  rw [show (List.map (fun x => ([x] : List ℚ)) [1]) = [[1]] from rfl]
  rw [zero_singleton_blocks 2047 (by omega), List.foldl_cons, List.foldl_nil]
  obtain ⟨-, -, -, h2u⟩ := processBlock_fire_proj (fun q => q) (fun l => l) 0
    { initialState with fftPos := 2047, rmsHistoryPos := 2047 % 100 } [1] (by simp)
    (by show 2047 + 1 = fftSize; rfl)
  rw [h2u]
  dsimp only
  have hrms2 : getRMSLevel (fun q => q) [(1:ℚ)] = 1 := by
    unfold getRMSLevel
    norm_num
  rw [hrms2]
  have e2 : initialState.rmsHistory.set (2047 % 100) (1:ℚ) =
      (List.replicate 100 (0:ℚ)).set 47 1 := by
    show (List.replicate 100 (0:ℚ)).set (2047 % 100) 1 = (List.replicate 100 (0:ℚ)).set 47 1
    norm_num
  rw [e2, calcU_set_rep_mid 47 1 (by norm_num) (by norm_num)]
  rw [abs_of_nonneg (by norm_num : (0:ℚ) ≤ 1/2048), abs_one]
  unfold jlimit
  norm_num

/-- C3: for every quadruple of feature values, the published composite
activation score equals `100 × (0.25×(1−centroid) + 0.35×(1−harshness) +
0.20×(1−variability) + 0.20×(1−unpredictability))` clamped to `[0,100]`,
and the score stored by an analysis pass satisfies this identity with
respect to the feature values stored by the same pass. -/
theorem claim3_composite_score_formula :
    (∀ c h v u : ℚ, calculateAcousticActivationScore c h v u =
      jlimit 0 100 (100 * (0.25 * (1 - c) + 0.35 * (1 - h) + 0.20 * (1 - v) + 0.20 * (1 - u)))) ∧
    (∀ (sq : ℚ → ℚ) (tr : List ℚ → List ℚ) (now : ℤ) (s : Engine),
      (performFFTAnalysis sq tr now s).acousticActivationScore =
        jlimit 0 100 (100 * (0.25 * (1 - (performFFTAnalysis sq tr now s).spectralCentroid) +
          0.35 * (1 - (performFFTAnalysis sq tr now s).spectralHarshness) +
          0.20 * (1 - (performFFTAnalysis sq tr now s).dynamicVariability) +
          0.20 * (1 - (performFFTAnalysis sq tr now s).temporalUnpredictability)))) := by
  have key : ∀ c h v u : ℚ, calculateAcousticActivationScore c h v u =
      jlimit 0 100 (100 * (0.25 * (1 - c) + 0.35 * (1 - h) + 0.20 * (1 - v) + 0.20 * (1 - u))) := by
    intro c h v u
    unfold calculateAcousticActivationScore
    dsimp only
    congr 1
    ring
  refine ⟨key, fun sq tr now s => ?_⟩
  rw [performFFTAnalysis_score, performFFTAnalysis_spectralCentroid,
    performFFTAnalysis_spectralHarshness, performFFTAnalysis_dynamicVariability,
    performFFTAnalysis_temporalUnpredictability]
  exact key _ _ _ _

/-- C5: export fails (no serialized output) exactly when the recording log
is empty — in particular on a fresh engine — and produces a text blob
whenever the log is non-empty. -/
theorem claim5_export_empty_log :
    exportToCSV initialState = none ∧
    (∀ s : Engine, (exportToCSV s = none ↔ s.dataLog = []) ∧
      (s.dataLog ≠ [] → ∃ txt, exportToCSV s = some txt)) := by
  refine ⟨rfl, fun s => ?_⟩
  cases h : s.dataLog with
  | nil => simp [exportToCSV, h]
  | cons p l => simp [exportToCSV, h]

theorem claim5_export_empty_log_witness :
    ∃ txt, exportToCSV { initialState with dataLog := [samplePoint] } = some txt :=
  (claim5_export_empty_log.2 { initialState with dataLog := [samplePoint] }).2 (by simp)

/-- C9: the export operation never modifies the recording log, its entry
count, or the recording state: the engine state after the export step is
exactly the state before it, and the produced output is the serialization
of that unchanged state. -/
theorem claim9_export_does_not_mutate (sq : ℚ → ℚ) (tr : List ℚ → List ℚ)
    (s : Engine) :
    (stepOp sq tr s .exportCsv).1.dataLog = s.dataLog ∧
    (stepOp sq tr s .exportCsv).1.dataLog.length = s.dataLog.length ∧
    (stepOp sq tr s .exportCsv).1.isLogging = s.isLogging ∧
    (stepOp sq tr s .exportCsv).1 = s ∧
    (stepOp sq tr s .exportCsv).2 = exportToCSV s :=
  ⟨rfl, rfl, rfl, rfl, rfl⟩

/-- C10: `prepareToPlay` resets the frame write cursor to 0 (discarding any
partially accumulated frame) and stores the new sample rate, leaving the
loudness history, all published metrics, the recording flag and the
recording log unchanged. -/
theorem claim10_prepareToPlay_effect (sr : ℚ) (s : Engine) :
    (prepareToPlay sr s).fftPos = 0 ∧
    (prepareToPlay sr s).currentSampleRate = sr ∧
    (prepareToPlay sr s).rmsHistory = s.rmsHistory ∧
    (prepareToPlay sr s).rmsHistoryPos = s.rmsHistoryPos ∧
    (prepareToPlay sr s).spectralCentroid = s.spectralCentroid ∧
    (prepareToPlay sr s).spectralHarshness = s.spectralHarshness ∧
    (prepareToPlay sr s).rmsLevel = s.rmsLevel ∧
    (prepareToPlay sr s).dynamicVariability = s.dynamicVariability ∧
    (prepareToPlay sr s).temporalUnpredictability = s.temporalUnpredictability ∧
    (prepareToPlay sr s).acousticActivationScore = s.acousticActivationScore ∧
    (prepareToPlay sr s).isLogging = s.isLogging ∧
    (prepareToPlay sr s).dataLog = s.dataLog :=
  ⟨rfl, rfl, rfl, rfl, rfl, rfl, rfl, rfl, rfl, rfl, rfl, rfl⟩

/-! ### Metric bounds (C4) -/

lemma calculateSpectralCentroid_mem (spec : List ℚ) (rate : ℚ) :
    0 ≤ calculateSpectralCentroid spec rate ∧ calculateSpectralCentroid spec rate ≤ 1 := by
  unfold calculateSpectralCentroid
  exact jlimit_mem 0 1 _ (by norm_num)

lemma calculateSpectralHarshness_mem (spec : List ℚ) (rate : ℚ) :
    0 ≤ calculateSpectralHarshness spec rate ∧ calculateSpectralHarshness spec rate ≤ 1 := by
  unfold calculateSpectralHarshness
  exact jlimit_mem 0 1 _ (by norm_num)

lemma calculateDynamicVariability_mem (sq : ℚ → ℚ) (history : List ℚ) :
    0 ≤ calculateDynamicVariability sq history ∧ calculateDynamicVariability sq history ≤ 1 := by
  unfold calculateDynamicVariability
  exact jlimit_mem 0 1 _ (by norm_num)

lemma calculateTemporalUnpredictability_mem (history : List ℚ) :
    0 ≤ calculateTemporalUnpredictability history ∧
      calculateTemporalUnpredictability history ≤ 1 := by
  unfold calculateTemporalUnpredictability
  exact jlimit_mem 0 1 _ (by norm_num)

lemma calculateAcousticActivationScore_mem (c h v u : ℚ) :
    0 ≤ calculateAcousticActivationScore c h v u ∧
      calculateAcousticActivationScore c h v u ≤ 100 := by
  unfold calculateAcousticActivationScore
  exact jlimit_mem 0 100 _ (by norm_num)

lemma metricsBounded_performFFTAnalysis (sq : ℚ → ℚ) (tr : List ℚ → List ℚ)
    (now : ℤ) (s : Engine) : metricsBounded (performFFTAnalysis sq tr now s) := by
  unfold metricsBounded
  rw [performFFTAnalysis_spectralCentroid, performFFTAnalysis_spectralHarshness,
    performFFTAnalysis_dynamicVariability, performFFTAnalysis_temporalUnpredictability,
    performFFTAnalysis_score]
  refine ⟨(calculateSpectralCentroid_mem _ _).1, (calculateSpectralCentroid_mem _ _).2,
    (calculateSpectralHarshness_mem _ _).1, (calculateSpectralHarshness_mem _ _).2,
    (calculateDynamicVariability_mem _ _).1, (calculateDynamicVariability_mem _ _).2,
    (calculateTemporalUnpredictability_mem _).1, (calculateTemporalUnpredictability_mem _).2,
    (calculateAcousticActivationScore_mem _ _ _ _).1,
    (calculateAcousticActivationScore_mem _ _ _ _).2⟩

lemma metricsBounded_ingestSample (sq : ℚ → ℚ) (tr : List ℚ → List ℚ)
    (now : ℤ) (s : Engine) (x : ℚ) (h : metricsBounded s) :
    metricsBounded (ingestSample sq tr now s x) := by
  unfold ingestSample
  dsimp only
  split
  · exact metricsBounded_performFFTAnalysis sq tr now _
  · exact h

lemma foldl_preserve {α : Type} {β : Type} (P : α → Prop) (f : α → β → α)
    (hstep : ∀ a b, P a → P (f a b)) :
    ∀ (l : List β) (a : α), P a → P (l.foldl f a)
  | [], _, h => h
  | b :: l, a, h => foldl_preserve P f hstep l (f a b) (hstep a b h)

lemma metricsBounded_processBlock (sq : ℚ → ℚ) (tr : List ℚ → List ℚ)
    (now : ℤ) (s : Engine) (b : List ℚ) (h : metricsBounded s) :
    metricsBounded (processBlock sq tr now s b) := by
  unfold processBlock
  dsimp only
  exact foldl_preserve metricsBounded _
    (fun a x ha => metricsBounded_ingestSample sq tr now a x ha) b _ h

lemma metricsBounded_initial : metricsBounded initialState := by
  unfold metricsBounded
  refine ⟨?_, ?_, ?_, ?_, ?_, ?_, ?_, ?_, ?_, ?_⟩ <;> norm_num [initialState]

lemma metricsBounded_step (sq : ℚ → ℚ) (tr : List ℚ → List ℚ)
    (s : Engine) (op : EngineOp) (h : metricsBounded s) :
    metricsBounded (stepOp sq tr s op).1 := by
  cases op with
  | audioBlock now samples => exact metricsBounded_processBlock sq tr now s samples h
  | prepare sr => exact h
  | startRec now => exact h
  | stopRec => exact h
  | exportCsv => exact h

/-! ### CSV serialization (C6) -/

lemma string_foldl_append : ∀ (l : List String) (a : String),
    l.foldl (· ++ ·) a = a ++ l.foldl (· ++ ·) ""
  | [], a => by simp
  | s :: l, a => by
    rw [List.foldl_cons, List.foldl_cons, string_foldl_append l (a ++ s),
      string_foldl_append l ("" ++ s), String.empty_append, String.append_assoc]

lemma string_join_cons (s : String) (l : List String) :
    String.join (s :: l) = s ++ String.join l := by
  unfold String.join
  rw [List.foldl_cons, String.empty_append, string_foldl_append l s]

lemma csv_foldl_eq_join : ∀ (l : List DataPoint) (acc : String),
    l.foldl (fun a p => a ++ csvRow p) acc = acc ++ String.join (l.map csvRow)
  | [], acc => by
    rw [List.foldl_nil, List.map_nil]
    rw [show String.join [] = "" from rfl, String.append_empty]
  | p :: l, acc => by
    rw [List.foldl_cons, csv_foldl_eq_join l (acc ++ csvRow p), List.map_cons,
      string_join_cons, String.append_assoc]

lemma exportToCSV_eq (s : Engine) (h : s.dataLog ≠ []) :
    exportToCSV s = some (csvHeader ++ "\n" ++ String.join (s.dataLog.map csvRow)) := by
  unfold exportToCSV
  rw [if_neg (by simpa [List.isEmpty_iff] using h)]
  rw [csv_foldl_eq_join]

/-! ### Recording-session lemmas (C7) -/

lemma performFFTAnalysis_log_timestamp (sq : ℚ → ℚ) (tr : List ℚ → List ℚ)
    (now : ℤ) (s : Engine) (hlog : s.isLogging = true) :
    (performFFTAnalysis sq tr now s).dataLog.map DataPoint.timestamp =
      s.dataLog.map DataPoint.timestamp ++ [((now - s.loggingStartTime : ℤ) : ℚ) / 1000] := by
  rw [performFFTAnalysis_dataLog, if_pos hlog, List.map_append]
  rfl

lemma processBlock_full_frame (sq : ℚ → ℚ) (tr : List ℚ → List ℚ) (now : ℤ)
    (s : Engine) (b : List ℚ) (hbne : b ≠ [])
    (hpos : s.fftPos = 0) (hb : b.length = fftSize) (hlog : s.isLogging = true) :
    (processBlock sq tr now s b).dataLog.map DataPoint.timestamp =
      s.dataLog.map DataPoint.timestamp ++ [((now - s.loggingStartTime : ℤ) : ℚ) / 1000] ∧
    (processBlock sq tr now s b).fftPos = 0 ∧
    (processBlock sq tr now s b).isLogging = true ∧
    (processBlock sq tr now s b).loggingStartTime = s.loggingStartTime := by
  unfold processBlock
  dsimp only
  rw [foldl_ingest_fire sq tr now b _ hbne
    (by show s.fftPos + b.length = fftSize; rw [hpos, Nat.zero_add]; exact hb)]
  refine ⟨?_, ?_, ?_, ?_⟩
  · rw [performFFTAnalysis_log_timestamp sq tr now _ (by dsimp only; exact hlog)]
  · rw [performFFTAnalysis_fftPos]
  · rw [performFFTAnalysis_isLogging]
    exact hlog
  · rw [performFFTAnalysis_loggingStartTime]

lemma recording_fold (sq : ℚ → ℚ) (tr : List ℚ → List ℚ) (t0 : ℤ) :
    ∀ (pairs : List (ℤ × List ℚ)) (s : Engine),
      s.fftPos = 0 → s.isLogging = true → s.loggingStartTime = t0 →
      (∀ p ∈ pairs, p.2.length = fftSize) →
      ((pairs.foldl (fun t p => processBlock sq tr p.1 t p.2) s).dataLog.map DataPoint.timestamp =
        s.dataLog.map DataPoint.timestamp ++
          pairs.map (fun p => ((p.1 - t0 : ℤ) : ℚ) / 1000)) ∧
      (pairs.foldl (fun t p => processBlock sq tr p.1 t p.2) s).fftPos = 0 ∧
      (pairs.foldl (fun t p => processBlock sq tr p.1 t p.2) s).isLogging = true ∧
      (pairs.foldl (fun t p => processBlock sq tr p.1 t p.2) s).loggingStartTime = t0
  | [], s, h0, h1, h2, _ => ⟨by simp, h0, h1, h2⟩
  | p :: pairs, s, h0, h1, h2, hlen => by
    have hb : p.2.length = fftSize := hlen p (by simp)
    have hbne : p.2 ≠ [] := by
      intro h
      rw [h] at hb
      simp [fftSize] at hb
    rw [List.foldl_cons]
    obtain ⟨hmap, hfp, hil, hst⟩ :=
      processBlock_full_frame sq tr p.1 s p.2 hbne h0 hb h1
    obtain ⟨hmap', hfp', hil', hst'⟩ := recording_fold sq tr t0 pairs
      (processBlock sq tr p.1 s p.2) hfp hil (by rw [hst]; exact h2)
      (fun q hq => hlen q (by simp [hq]))
    refine ⟨?_, hfp', hil', hst'⟩
    rw [hmap', hmap, h2, List.map_cons, List.append_assoc]
    rfl

/-- C7 (amended): a session of `startRecording()`, N timed blocks at
strictly increasing clock times, each completing exactly one analysis
frame, then `stopRecording()` and export yields exactly N data rows plus
the header, with strictly increasing first columns. (As stated the claim
fails when several frames complete at the same clock reading — see the
counterexample — so strictness is guaranteed when each frame completion
observes a strictly later clock value.) -/
theorem claim7_recording_rows (sq : ℚ → ℚ) (tr : List ℚ → List ℚ)
    (t0 : ℤ) (pairs : List (ℤ × List ℚ))
    (hlen : ∀ p ∈ pairs, p.2.length = fftSize)
    (hchain : List.Chain' (· < ·) (pairs.map Prod.fst)) :
    (recordingRun sq tr t0 pairs).dataLog.length = pairs.length ∧
    List.Chain' (· < ·)
      ((recordingRun sq tr t0 pairs).dataLog.map DataPoint.timestamp) ∧
    (pairs ≠ [] → exportToCSV (recordingRun sq tr t0 pairs) =
      some (csvHeader ++ "\n" ++
        String.join ((recordingRun sq tr t0 pairs).dataLog.map csvRow))) := by
  obtain ⟨hmap, -, -, -⟩ := recording_fold sq tr t0 pairs (startLogging t0 initialState)
    rfl rfl rfl hlen
  have hrun : (recordingRun sq tr t0 pairs).dataLog =
      (pairs.foldl (fun t p => processBlock sq tr p.1 t p.2)
        (startLogging t0 initialState)).dataLog := rfl
  have hmap2 : (recordingRun sq tr t0 pairs).dataLog.map DataPoint.timestamp =
      pairs.map (fun p => ((p.1 - t0 : ℤ) : ℚ) / 1000) := by
    rw [hrun, hmap]
    rfl
  have hlength : (recordingRun sq tr t0 pairs).dataLog.length = pairs.length := by
    have h := congrArg List.length hmap2
    rwa [List.length_map, List.length_map] at h
  refine ⟨hlength, ?_, ?_⟩
  · rw [hmap2]
    rw [show (fun p : ℤ × List ℚ => ((p.1 - t0 : ℤ) : ℚ) / 1000) =
        (fun t : ℤ => ((t - t0 : ℤ) : ℚ) / 1000) ∘ Prod.fst from rfl, ← List.map_map]
    rw [List.chain'_map]
    refine hchain.imp (fun a b hab => ?_)
    have hq : ((a - t0 : ℤ) : ℚ) < ((b - t0 : ℤ) : ℚ) := by
      exact_mod_cast sub_lt_sub_right hab t0
    exact (div_lt_div_iff_of_pos_right (by norm_num)).mpr hq
  · intro hne
    apply exportToCSV_eq
    intro hnil
    rw [hnil] at hlength
    exact hne (List.eq_nil_of_length_eq_zero hlength.symm)

theorem claim7_recording_rows_witness :
    (recordingRun (fun q => q) (fun l => l) 0
      [((1:ℤ), List.replicate fftSize (0:ℚ))]).dataLog.length =
      [((1:ℤ), List.replicate fftSize (0:ℚ))].length ∧
    List.Chain' (· < ·)
      ((recordingRun (fun q => q) (fun l => l) 0
        [((1:ℤ), List.replicate fftSize (0:ℚ))]).dataLog.map DataPoint.timestamp) ∧
    ([((1:ℤ), List.replicate fftSize (0:ℚ))] ≠ ([] : List (ℤ × List ℚ)) →
      exportToCSV (recordingRun (fun q => q) (fun l => l) 0
        [((1:ℤ), List.replicate fftSize (0:ℚ))]) =
      some (csvHeader ++ "\n" ++
        String.join ((recordingRun (fun q => q) (fun l => l) 0
          [((1:ℤ), List.replicate fftSize (0:ℚ))]).dataLog.map csvRow))) :=
  claim7_recording_rows (fun q => q) (fun l => l) 0
    [((1:ℤ), List.replicate fftSize (0:ℚ))]
    (by
      intro p hp
      rw [List.mem_singleton] at hp
      subst hp
      exact List.length_replicate _ _)
    (by simp)

lemma foldl_ingest_two_frames_log (sq : ℚ → ℚ) (tr : List ℚ → List ℚ)
    (now : ℤ) (s : Engine) (b : List ℚ)
    (hpos : s.fftPos = 0) (hb : b.length = 2 * fftSize) (hlog : s.isLogging = true) :
    (b.foldl (ingestSample sq tr now) s).dataLog.map DataPoint.timestamp =
      s.dataLog.map DataPoint.timestamp ++
        [((now - s.loggingStartTime : ℤ) : ℚ) / 1000,
         ((now - s.loggingStartTime : ℤ) : ℚ) / 1000] := by
  have h2048 : fftSize = 2048 := rfl
  have h1 : (b.take fftSize).length = fftSize := by
    rw [List.length_take]
    rw [h2048] at hb ⊢
    omega
  have h2 : (b.drop fftSize).length = fftSize := by
    rw [List.length_drop]
    rw [h2048] at hb ⊢
    omega
  have hne1 : b.take fftSize ≠ [] := by
    intro h
    rw [h] at h1
    simp [fftSize] at h1
  have hne2 : b.drop fftSize ≠ [] := by
    intro h
    rw [h] at h2
    simp [fftSize] at h2
  conv_lhs => rw [← List.take_append_drop fftSize b]
  rw [List.foldl_append]
  rw [foldl_ingest_fire sq tr now (b.take fftSize) s hne1
    (by rw [hpos, Nat.zero_add]; exact h1)]
  set A : Engine := performFFTAnalysis sq tr now
    { s with fftData := writeSeq s.fftData s.fftPos (b.take fftSize), fftPos := 0 } with hA
  have hAfp : A.fftPos = 0 := by
    rw [hA, performFFTAnalysis_fftPos]
  have hAlog : A.isLogging = true := by
    rw [hA, performFFTAnalysis_isLogging]
    exact hlog
  have hAst : A.loggingStartTime = s.loggingStartTime := by
    rw [hA, performFFTAnalysis_loggingStartTime]
  have hAdata : A.dataLog.map DataPoint.timestamp =
      s.dataLog.map DataPoint.timestamp ++
        [((now - s.loggingStartTime : ℤ) : ℚ) / 1000] := by
    rw [hA, performFFTAnalysis_log_timestamp sq tr now
      ({ s with fftData := writeSeq s.fftData s.fftPos (b.take fftSize), fftPos := 0 })
      (by show s.isLogging = true; exact hlog)]
  rw [foldl_ingest_fire sq tr now (b.drop fftSize) A hne2
    (by rw [hAfp, Nat.zero_add]; exact h2)]
  rw [performFFTAnalysis_log_timestamp sq tr now
    ({ A with fftData := writeSeq A.fftData A.fftPos (b.drop fftSize), fftPos := 0 })
    (by show A.isLogging = true; exact hAlog)]
  rw [show ({ A with fftData := writeSeq A.fftData A.fftPos (b.drop fftSize), fftPos := 0 } : Engine).dataLog = A.dataLog from rfl]
  rw [show ({ A with fftData := writeSeq A.fftData A.fftPos (b.drop fftSize), fftPos := 0 } : Engine).loggingStartTime = A.loggingStartTime from rfl]
  rw [hAdata, hAst, List.append_assoc]
  rfl

lemma processBlock_two_frames (sq : ℚ → ℚ) (tr : List ℚ → List ℚ)
    (now : ℤ) (s : Engine) (b : List ℚ)
    (hpos : s.fftPos = 0) (hb : b.length = 2 * fftSize) (hlog : s.isLogging = true) :
    (processBlock sq tr now s b).dataLog.map DataPoint.timestamp =
      s.dataLog.map DataPoint.timestamp ++
        [((now - s.loggingStartTime : ℤ) : ℚ) / 1000,
         ((now - s.loggingStartTime : ℤ) : ℚ) / 1000] := by
  unfold processBlock
  dsimp only
  have h := foldl_ingest_two_frames_log sq tr now
    ({ s with rmsLevel := getRMSLevel sq b, rmsHistory := s.rmsHistory.set s.rmsHistoryPos (getRMSLevel sq b), rmsHistoryPos := (s.rmsHistoryPos + 1) % rmsHistorySize }) b
    (by show s.fftPos = 0; exact hpos) hb
    (by show s.isLogging = true; exact hlog)
  rw [show ({ s with rmsLevel := getRMSLevel sq b, rmsHistory := s.rmsHistory.set s.rmsHistoryPos (getRMSLevel sq b), rmsHistoryPos := (s.rmsHistoryPos + 1) % rmsHistorySize } : Engine).dataLog = s.dataLog from rfl] at h
  rw [show ({ s with rmsLevel := getRMSLevel sq b, rmsHistory := s.rmsHistory.set s.rmsHistoryPos (getRMSLevel sq b), rmsHistoryPos := (s.rmsHistoryPos + 1) % rmsHistorySize } : Engine).loggingStartTime = s.loggingStartTime from rfl] at h
  exact h

/-- C7 (counterexample): a 4096-sample silent block delivered at a single
clock reading completes two analysis frames while recording; both logged
rows carry the same elapsed time, so the first column of the exported rows
is equal, not strictly increasing, refuting the claim as stated. -/
theorem claim7_counterexample :
    (stopLogging (processBlock (fun q => q) (fun l => l) 5
        (startLogging 0 initialState) (List.replicate 4096 0))).dataLog.length = 2 ∧
    ¬ List.Chain' (· < ·)
      ((stopLogging (processBlock (fun q => q) (fun l => l) 5
        (startLogging 0 initialState) (List.replicate 4096 0))).dataLog.map
          DataPoint.timestamp) := by
  have hstop : ∀ t : Engine, (stopLogging t).dataLog = t.dataLog := fun _ => rfl
  have key := processBlock_two_frames (fun q => q) (fun l => l) 5
    (startLogging 0 initialState) (List.replicate 4096 0)
    rfl
    (by rw [List.length_replicate]; rfl)
    rfl
  rw [show (startLogging 0 initialState).dataLog = [] from rfl] at key
  rw [List.map_nil, List.nil_append] at key
  refine ⟨?_, ?_⟩
  · rw [hstop]
    have h := congrArg List.length key
    rw [List.length_map] at h
    exact h
  · rw [hstop, key]
    intro hchain
    have h := List.chain'_cons.mp hchain
    exact absurd h.1 (lt_irrefl _)

/-- C4: initially the published features are 0.0, the loudness is 0.0 and
the score is 50.0; at every reachable point of the engine's lifetime
(after any sequence of host operations, hence after every completed
analysis frame) the four normalized features lie in `[0,1]` and the
composite score lies in `[0,100]`. -/
theorem claim4_metric_bounds (sq : ℚ → ℚ) (tr : List ℚ → List ℚ)
    (ops : List EngineOp) :
    (initialState.spectralCentroid = 0 ∧ initialState.spectralHarshness = 0 ∧
      initialState.dynamicVariability = 0 ∧ initialState.temporalUnpredictability = 0 ∧
      initialState.rmsLevel = 0 ∧ initialState.acousticActivationScore = 50) ∧
    metricsBounded initialState ∧
    metricsBounded (runOps sq tr ops) := by
  refine ⟨⟨rfl, rfl, rfl, rfl, rfl, rfl⟩, metricsBounded_initial, ?_⟩
  unfold runOps
  exact foldl_preserve metricsBounded _
    (fun a op ha => metricsBounded_step sq tr a op ha) ops initialState metricsBounded_initial

/-- C6: for every non-empty recording log, the exported text is exactly the
header line followed by one row per data point in insertion order, with the
elapsed time to 3 decimals, the score to 2, the four features to 4 each and
the loudness to 6, each row terminated by a newline and nothing after the
last row. -/
theorem claim6_csv_format (s : Engine) (h : s.dataLog ≠ []) :
    exportToCSV s = some
      ("Timestamp_Seconds,Activation_Score,Spectral_Centroid,Spectral_Harshness,Dynamic_Variability,Temporal_Unpredictability,RMS_Level"
        ++ "\n" ++
        String.join (s.dataLog.map (fun p =>
          formatFixed p.timestamp 3 ++ "," ++
          formatFixed p.activationScore 2 ++ "," ++
          formatFixed p.spectralCentroid 4 ++ "," ++
          formatFixed p.spectralHarshness 4 ++ "," ++
          formatFixed p.dynamicVariability 4 ++ "," ++
          formatFixed p.temporalUnpredictability 4 ++ "," ++
          formatFixed p.rmsLevel 6 ++ "\n"))) :=
  exportToCSV_eq s h

theorem claim6_csv_format_witness :
    exportToCSV { initialState with dataLog := [samplePoint] } = some
      ("Timestamp_Seconds,Activation_Score,Spectral_Centroid,Spectral_Harshness,Dynamic_Variability,Temporal_Unpredictability,RMS_Level"
        ++ "\n" ++
        String.join (([samplePoint] : List DataPoint).map (fun p =>
          formatFixed p.timestamp 3 ++ "," ++
          formatFixed p.activationScore 2 ++ "," ++
          formatFixed p.spectralCentroid 4 ++ "," ++
          formatFixed p.spectralHarshness 4 ++ "," ++
          formatFixed p.dynamicVariability 4 ++ "," ++
          formatFixed p.temporalUnpredictability 4 ++ "," ++
          formatFixed p.rmsLevel 6 ++ "\n"))) :=
  claim6_csv_format { initialState with dataLog := [samplePoint] } (by simp)

/-! ### C8: rotation (in)dependence of the history statistics -/

lemma rotate_sum_eq (l : List ℚ) (n : ℕ) : (l.rotate n).sum = l.sum :=
  (List.rotate_perm l n).sum_eq

lemma rotate_map_sum_eq (f : ℚ → ℚ) (l : List ℚ) (n : ℕ) :
    ((l.rotate n).map f).sum = (l.map f).sum :=
  ((List.rotate_perm l n).map f).sum_eq

/-- C8 (amended): the dynamic variability computed from the history buffer
is independent of the buffer's internal rotation; the temporal
unpredictability, computed over raw storage order, is not (see the
counterexample). -/
theorem claim8_variability_rotation_invariant (sq : ℚ → ℚ) (l : List ℚ) (n : ℕ) :
    calculateDynamicVariability sq (l.rotate n) = calculateDynamicVariability sq l := by
  unfold calculateDynamicVariability
  dsimp only
  rw [rotate_sum_eq, rotate_map_sum_eq]

/-- C8 (counterexample): the temporal unpredictability computed over the
raw storage order of `rawBuf` (value 1 after clamping) differs from the
value computed over the logical oldest-to-newest order (50/99), refuting
the claim that both history statistics are rotation independent. -/
theorem claim8_counterexample :
    calculateTemporalUnpredictability rawBuf ≠
      calculateTemporalUnpredictability (rawBuf.rotate 2) := by
  have h1 : rawBuf = (List.replicate 100 (0:ℚ)).set 1 1 := rfl
  have h2 : rawBuf.rotate 2 = (List.replicate 100 (0:ℚ)).set 99 1 := by rfl
  rw [h2, h1, calcU_set_rep_mid 1 1 (by norm_num) (by norm_num), calcU_set_rep_last 1]
  unfold jlimit
  norm_num

end AcousticAnalyzer
